import Mathlib

/-!
Verification of `src/task1.py` (population bar-chart utility).

The Python program is shallowly embedded: population values are integers
(as they are in the program's data), pandas `DataFrame`s become an explicit
row-list table type, and the plotting calls are modelled by the chart
description they draw (selected rows, bar labels, title, value strings).
Python's float format `{v:.1f}` is modelled as round-half-even of the exact
rational value at one decimal place, which agrees with CPython on every
non-tie input; `{x:.0f}` on an integer is its decimal rendering.
-/

namespace Task1

/-- The character for decimal digit `d` (`0`–`9` when `d < 10`). -/
def digitChar (d : Nat) : Char := Char.ofNat (48 + d)

/-- Decimal digit list of a natural number, most significant first. -/
def natDigits (n : Nat) : List Char :=
  if _h : n < 10 then [digitChar n]
  else natDigits (n / 10) ++ [digitChar (n % 10)]
decreasing_by exact Nat.div_lt_self (by omega) (by omega)

/-- Decimal rendering of a natural number. -/
def natRepr (n : Nat) : String := String.mk (natDigits n)

/-- Decimal digit list of an integer (with a leading minus sign when negative);
this is what CPython's `f"{x:.0f}"` prints for an integer `x`. -/
def intDigits (x : Int) : List Char :=
  if x < 0 then Char.ofNat 45 :: natDigits x.natAbs else natDigits x.natAbs

/-- Decimal rendering of an integer, modelling Python's `f"{x:.0f}"`. -/
def intRepr (x : Int) : String := String.mk (intDigits x)

/-- Nearest integer to `num / den` (for `den > 0`), ties to even:
the rounding CPython applies when formatting. -/
def roundHalfEvenDiv (num den : Int) : Int :=
  let q := Int.fdiv num den
  let r := num - den * q
  if 2 * r < den then q
  else if den < 2 * r then q + 1
  else if q % 2 = 0 then q else q + 1

/-- Models Python's `f"{x/den:.1f}"`: the quotient rendered with one decimal
digit, rounding half to even (used with positive `x`, `den` here). -/
def formatScaled1 (x den : Int) : String :=
  let t := roundHalfEvenDiv (x * 10) den
  natRepr (t.natAbs / 10) ++ "." ++ natRepr (t.natAbs % 10)

/-- Function `format_population` from `src/task1.py` lines 59–66: three-tier magnitude
formatter.  The `pos` argument (matplotlib tick position) is ignored by the
source body. -/
def format_population (x : Int) (pos : Option Int) : String :=
  if 10 ^ 9 ≤ x then formatScaled1 x (10 ^ 9) ++ "B"
  else if 10 ^ 6 ≤ x then formatScaled1 x (10 ^ 6) ++ "M"
  else intRepr x

/-- Value of a digit list read in base 10 (digits as ASCII characters). -/
def digitsVal (l : List Char) : Nat :=
  l.foldl (fun a c => 10 * a + (c.toNat - 48)) 0

theorem toNat_digitChar {d : Nat} (h : d < 10) : (digitChar d).toNat = 48 + d := by
  interval_cases d <;> rfl

theorem isDigit_digitChar {d : Nat} (h : d < 10) : (digitChar d).isDigit = true := by
  interval_cases d <;> rfl

theorem mem_natDigits {n : Nat} {c : Char} (hc : c ∈ natDigits n) :
    ∃ d, d < 10 ∧ c = digitChar d := by
  induction n using natDigits.induct with
  | case1 n h =>
    rw [natDigits, dif_pos h] at hc
    exact ⟨n, h, (List.mem_singleton.mp hc)⟩
  | case2 n h ih =>
    rw [natDigits, dif_neg h] at hc
    rcases List.mem_append.mp hc with h1 | h2
    · exact ih h1
    · exact ⟨n % 10, Nat.mod_lt _ (by omega), List.mem_singleton.mp h2⟩

theorem digitsVal_append_one (l : List Char) (c : Char) :
    digitsVal (l ++ [c]) = 10 * digitsVal l + (c.toNat - 48) := by
  simp [digitsVal, List.foldl_append]

/-- Reading the digit list of `natDigits n` back in base 10 gives `n`:
the rendering really is the decimal form of `n`. -/
theorem digitsVal_natDigits (n : Nat) : digitsVal (natDigits n) = n := by
  induction n using natDigits.induct with
  | case1 n h =>
    rw [natDigits, dif_pos h]
    interval_cases n <;> rfl
  | case2 n h ih =>
    rw [natDigits, dif_neg h, digitsVal_append_one, ih,
        toNat_digitChar (Nat.mod_lt _ (by omega))]
    omega

theorem mem_intDigits {x : Int} {c : Char} (hc : c ∈ intDigits x) :
    c.isDigit = true ∨ c = Char.ofNat 45 := by
  by_cases hx : x < 0
  · rw [intDigits, if_pos hx] at hc
    rcases List.mem_cons.mp hc with rfl | h
    · exact Or.inr rfl
    · obtain ⟨d, hd, rfl⟩ := mem_natDigits h
      exact Or.inl (isDigit_digitChar hd)
  · rw [intDigits, if_neg hx] at hc
    obtain ⟨d, hd, rfl⟩ := mem_natDigits hc
    exact Or.inl (isDigit_digitChar hd)

/-- C1: for every numeric `x`, `format_population` returns
`f"{x/1e9:.1f}B"` when `x ≥ 1e9`; when `1e6 ≤ x < 1e9` it returns
`f"{x/1e6:.1f}M"`, a string ending in `"M"`; when `x < 1e6` it returns the
rounded-integer rendering of `x` with no suffix; and the result depends only
on `x`, not on the tick-position argument. -/
theorem format_population_three_tier (x : Int) (pos pos' : Option Int) :
    (10 ^ 9 ≤ x → format_population x pos = formatScaled1 x (10 ^ 9) ++ "B")
    ∧ (10 ^ 6 ≤ x → x < 10 ^ 9 →
        format_population x pos = formatScaled1 x (10 ^ 6) ++ "M"
        ∧ ∃ s, format_population x pos = s ++ "M")
    ∧ (x < 10 ^ 6 → format_population x pos = intRepr x)
    ∧ format_population x pos = format_population x pos' := by
  refine ⟨fun h => ?_, fun h h' => ?_, fun h => ?_, rfl⟩
  · rw [format_population, if_pos h]
  · rw [format_population, if_neg (by omega), if_pos h]
    exact ⟨rfl, formatScaled1 x (10 ^ 6), rfl⟩
  · rw [format_population, if_neg (by omega), if_neg (by omega)]

/-- Instantiation of the `C1` theorem at concrete inputs in each tier. -/
theorem format_population_three_tier_holds :
    (format_population 1500000000 none = formatScaled1 1500000000 (10 ^ 9) ++ "B")
    ∧ (format_population 250000000 none = formatScaled1 250000000 (10 ^ 6) ++ "M")
    ∧ format_population 999 none = intRepr 999 :=
  ⟨(format_population_three_tier 1500000000 none none).1 (by decide),
   ((format_population_three_tier 250000000 none none).2.1 (by decide) (by decide)).1,
   (format_population_three_tier 999 none none).2.2.1 (by decide)⟩

/-- C10: `format_population` is total on all integers: for every
`x < 1e6` — zero and negative values of any magnitude included — it returns
the plain decimal rendering of `x`, whose characters are digits or a minus
sign, so in particular it carries no `B` or `M` suffix. -/
theorem format_population_below_million (x : Int) (pos : Option Int) (h : x < 10 ^ 6) :
    format_population x pos = intRepr x
    ∧ ∀ c ∈ (intRepr x).data, c.isDigit = true ∨ c = Char.ofNat 45 := by
  refine ⟨?_, fun c hc => mem_intDigits hc⟩
  rw [format_population, if_neg (by omega), if_neg (by omega)]

/-- Instantiation of the `C10` theorem at a large negative input. -/
theorem format_population_below_million_holds :
    format_population (-2000000000) none = intRepr (-2000000000)
    ∧ ∀ c ∈ (intRepr (-2000000000)).data, c.isDigit = true ∨ c = Char.ofNat 45 :=
  format_population_below_million (-2000000000) none (by decide)

/-- One row of the population table: the "Country Name" cell plus the row's
year columns as (year label, value) pairs. -/
structure Row where
  country : String
  pops : List (String × Int)
deriving DecidableEq

/-- Value of a row in a year column.  The renderer only reads columns whose
presence was already checked at the table level, so absent keys default. -/
def Row.val (r : Row) (year : String) : Int := (r.pops.lookup year).getD 0

/-- Shallow embedding of the pandas `DataFrame` this program builds: a
"Country Name" column plus year columns, stored row-major. -/
structure PopulationTable where
  yearColumns : List String
  rows : List Row
deriving DecidableEq

/-- Zips the four column lists of the sample-data dict (lines 35–56) into
rows, as `pd.DataFrame(data)` aligns the columns positionally. -/
def buildRows : List String → List Int → List Int → List Int → List Row
  | c :: cs, a :: xs, b :: ys, d :: zs =>
      { country := c, pops := [("2010", a), ("2015", b), ("2020", d)] } :: buildRows cs xs ys zs
  | _, _, _, _ => []

/-- Function `get_sample_data` from `src/task1.py` lines 30–57: the static
fallback table with its literal population counts. -/
def get_sample_data : PopulationTable :=
  { yearColumns := ["2010", "2015", "2020"]
    rows := buildRows
      ["China", "India", "United States", "Indonesia", "Pakistan",
       "Brazil", "Nigeria", "Bangladesh", "Russia", "Mexico",
       "Japan", "Ethiopia", "Philippines", "Egypt", "Vietnam"]
      [1337705000, 1230984504, 309011475, 242524123, 179424641,
       196796269, 158503197, 147575430, 143479274, 119090017,
       128542353, 87702670, 93966780, 82761235, 87411012]
      [1406847870, 1310152403, 321418820, 258383256, 199426964,
       204471769, 181137448, 156256276, 144096870, 125890949,
       127985133, 100835458, 102113212, 92442547, 92677076]
      [1410929362, 1380004385, 329484123, 273523621, 220892331,
       212559409, 206139587, 164689383, 144104080, 128932753,
       125836021, 114963583, 109581085, 102334403, 97338583] }

/-- Outcome of the one network attempt `requests.get(url, timeout=10)` and of
parsing its body: either the request raises a transport-level error
(connection failure, timeout), or it yields an HTTP status together with the
result of `pd.read_csv` on the body (which may itself raise). -/
inductive FetchOutcome where
  | transportError (msg : String)
  | httpResponse (status : Nat) (parsed : Except String PopulationTable)

/-- Function `fetch_world_bank_population_data` from `src/task1.py` lines
7–28, as a function of the network outcome.  Returns the table together with
the diagnostic messages printed; the total return type records that no
exception escapes: every failure path ends in `get_sample_data`. -/
def fetch_world_bank_population_data (env : FetchOutcome) :
    PopulationTable × List String :=
  match env with
  | .transportError msg => (get_sample_data, ["Error fetching data: " ++ msg])
  | .httpResponse status parsed =>
      if status = 200 then
        match parsed with
        | .ok t => (t, [])
        | .error e => (get_sample_data, ["Error fetching data: " ++ e])
      else
        (get_sample_data, ["Failed to fetch data: HTTP " ++ toString status])

/-- Failure condition of the fetch: transport error, non-200 status, or a
parse error on a 200 response body. -/
def fetchFails : FetchOutcome → Prop
  | .transportError _ => True
  | .httpResponse status parsed => status ≠ 200 ∨ ∃ e, parsed = Except.error e

/-- Row comparison in a year column: the ascending order underlying
`sort_values`. -/
def rowLe (year : String) (a b : Row) : Prop := a.val year ≤ b.val year

instance (year : String) : DecidableRel (rowLe year) := fun a b =>
  inferInstanceAs (Decidable (a.val year ≤ b.val year))

instance (year : String) : IsTotal Row (rowLe year) :=
  ⟨fun a b => Int.le_total (a.val year) (b.val year)⟩

instance (year : String) : IsTrans Row (rowLe year) :=
  ⟨fun _ _ _ => Int.le_trans⟩

/-- Line 79's `data.sort_values(by=year, ascending=False)` as pandas executes
it (`nargsort`): an ascending argsort of the reversed row sequence, with the
resulting index order reversed again.  The numpy kernel sort
(`argsort(kind="quicksort")`, an introsort) is modelled by insertion sort.
This model is exact only for inputs of at most 16 rows — numpy's introsort
runs pure insertion sort below that threshold, which covers the 15-row table
this program builds — while above 16 rows numpy partitions, which reorders
equal keys, so for larger inputs only the multiset of rows and the
non-increasing key order are faithful, not the relative order of tied rows. -/
def sort_values_desc (year : String) (rows : List Row) : List Row :=
  (List.insertionSort (rowLe year) rows.reverse).reverse

/-- The chart drawn by `plot_population_bar_chart`: the rows it selects, the
bar categories and heights, the title, and the per-bar value strings. -/
structure Chart where
  selected : List Row
  countries : List String
  values : List Int
  title : String
  valueLabels : List String
deriving DecidableEq

/-- Function `plot_population_bar_chart` from `src/task1.py` lines 68–123.
A `year` naming no column makes `sort_values` raise a `KeyError`, modelled by
the error value; otherwise the descending-sorted top-`top_n` rows are drawn.
The Python defaults are `year="2020"`, `top_n=10`, `figsize=(12, 8)`.  The
second component of a successful result is the final value of the `data`
argument: the source never rebinds `data` and calls only non-inplace pandas
operations (`sort_values` and `head` return new frames), so it is handed back
exactly as it came in. -/
def plot_population_bar_chart (data : PopulationTable) (year : String)
    (top_n : Nat) (figsize : Nat × Nat) : Except String (Chart × PopulationTable) :=
  if year ∈ data.yearColumns then
    let sorted_data := (sort_values_desc year data.rows).take top_n
    Except.ok
      ({ selected := sorted_data
         countries := sorted_data.map (fun r => r.country)
         values := sorted_data.map (fun r => r.val year)
         title := "Top " ++ toString top_n ++ " Countries by Population (" ++ year ++ ")"
         valueLabels := sorted_data.map (fun r => format_population (r.val year) none) },
       data)
  else Except.error ("KeyError: " ++ year)

/-- Lines 136–138 of `main`, with the call-site constants as parameters:
render the chart, and only after `plot_population_bar_chart` has returned
successfully write the image file named from `top_n` and `year`
(`plot.savefig(output_file)`).  The result is the name of the file written;
on error nothing is written and the error propagates. -/
def render_to_file (data : PopulationTable) (year : String) (top_n : Nat) :
    Except String String :=
  match plot_population_bar_chart data year top_n (12, 8) with
  | Except.error e => Except.error e
  | Except.ok _ => Except.ok ("population_top" ++ toString top_n ++ "_" ++ year ++ ".png")

/-- Function `main` from `src/task1.py` lines 125–142.  It takes the ambient
network outcome only to make explicit that it never consults it: line 128
calls `get_sample_data()` directly ("Using sample data directly for
reliability") rather than `fetch_world_bank_population_data`.  Returns the
printed progress messages, and the chart with the written file name (or the
propagated error). -/
def main_run (env : FetchOutcome) : List String × Except String (Chart × String) :=
  let logs := ["Fetching population data...", "Creating bar chart..."]
  let population_data := get_sample_data
  match plot_population_bar_chart population_data "2020" 10 (12, 8) with
  | Except.error e => (logs, Except.error e)
  | Except.ok c =>
      let output_file := "population_top" ++ toString 10 ++ "_" ++ "2020" ++ ".png"
      (logs ++ ["Chart saved as " ++ output_file], Except.ok (c.1, output_file))

theorem sort_values_desc_perm (year : String) (rows : List Row) :
    (sort_values_desc year rows).Perm rows :=
  (List.reverse_perm _).trans ((List.perm_insertionSort _ _).trans (List.reverse_perm _))

instance {ε α : Type _} [DecidableEq ε] [DecidableEq α] : DecidableEq (Except ε α) := fun a b =>
  match a, b with
  | Except.error e, Except.error f =>
    if h : e = f then Decidable.isTrue (by rw [h])
    else Decidable.isFalse (by intro hc; injection hc with h2; exact h h2)
  | Except.ok x, Except.ok y =>
    if h : x = y then Decidable.isTrue (by rw [h])
    else Decidable.isFalse (by intro hc; injection hc with h2; exact h h2)
  | Except.error _, Except.ok _ => Decidable.isFalse (fun hc => Except.noConfusion hc)
  | Except.ok _, Except.error _ => Decidable.isFalse (fun hc => Except.noConfusion hc)

/-- C3 counterexample: on the static fallback table, the top-5 selection for
year "2020" is China, India, United States, Indonesia, Pakistan — not Nigeria
as the claim states.  Pakistan's literal 2020 value 220892331 exceeds
Nigeria's 206139587 (Nigeria is seventh, after Brazil). -/
theorem top5_2020_fifth_not_nigeria :
    (plot_population_bar_chart get_sample_data "2020" 5 (12, 8)).map (fun p => p.1.countries)
      ≠ Except.ok (["China", "India", "United States", "Indonesia", "Nigeria"]) := by
  decide

/-- C3 (amended): `render(table, "2020", 5, ...)` on the static fallback
table selects, in order, China, India, United States, Indonesia, Pakistan —
the result of sorting the literal 2020 sample values in descending order. -/
theorem top5_2020_selection :
    (plot_population_bar_chart get_sample_data "2020" 5 (12, 8)).map (fun p => p.1.countries)
      = Except.ok (["China", "India", "United States", "Indonesia", "Pakistan"]) := by
  decide

/-- C4: for every failing execution of the fetch — transport error, non-200
status, or parse error of a 200 body — `fetch_world_bank_population_data`
returns the 15-row static fallback table and prints a diagnostic message; its
total return type lets no exception escape to the caller. -/
theorem fetch_httpResponse (status : Nat) (parsed : Except String PopulationTable) :
    fetch_world_bank_population_data (FetchOutcome.httpResponse status parsed)
      = if status = 200 then
          match parsed with
          | Except.ok t => (t, [])
          | Except.error e => (get_sample_data, ["Error fetching data: " ++ e])
        else (get_sample_data, ["Failed to fetch data: HTTP " ++ toString status]) := rfl

theorem fetch_failure_returns_sample (env : FetchOutcome) (h : fetchFails env) :
    (fetch_world_bank_population_data env).1 = get_sample_data
    ∧ (fetch_world_bank_population_data env).1.rows.length = 15
    ∧ (fetch_world_bank_population_data env).2 ≠ [] := by
  have hlen : get_sample_data.rows.length = 15 := rfl
  cases env with
  | transportError msg =>
    exact ⟨rfl, hlen, List.cons_ne_nil _ _⟩
  | httpResponse status parsed =>
    have h' : status ≠ 200 ∨ ∃ e, parsed = Except.error e := h
    rcases h' with hs | ⟨e, rfl⟩
    · rw [fetch_httpResponse, if_neg hs]
      exact ⟨rfl, hlen, List.cons_ne_nil _ _⟩
    · by_cases hs : status = 200
      · subst hs
        exact ⟨rfl, hlen, List.cons_ne_nil _ _⟩
      · rw [fetch_httpResponse, if_neg hs]
        exact ⟨rfl, hlen, List.cons_ne_nil _ _⟩

/-- Instantiation of the C4 theorem on a transport timeout. -/
theorem fetch_failure_returns_sample_holds :
    (fetch_world_bank_population_data (FetchOutcome.transportError "timeout")).1
      = get_sample_data
    ∧ (fetch_world_bank_population_data
        (FetchOutcome.transportError "timeout")).1.rows.length = 15
    ∧ (fetch_world_bank_population_data (FetchOutcome.transportError "timeout")).2 ≠ [] :=
  fetch_failure_returns_sample (FetchOutcome.transportError "timeout") (by exact True.intro)

/-- C5: if the requested year names no column of the table, the renderer
raises a `KeyError` that is not recovered (`plot_population_bar_chart`
returns the error), and no output image file is written — the file name is
only produced after the chart has been fully constructed. -/
theorem missing_year_errors_no_file (data : PopulationTable) (year : String)
    (top_n : Nat) (figsize : Nat × Nat) (h : year ∉ data.yearColumns) :
    plot_population_bar_chart data year top_n figsize = Except.error ("KeyError: " ++ year)
    ∧ render_to_file data year top_n = Except.error ("KeyError: " ++ year)
    ∧ ∀ f, render_to_file data year top_n ≠ Except.ok f := by
  have h1 : ∀ fs : Nat × Nat, plot_population_bar_chart data year top_n fs
      = Except.error ("KeyError: " ++ year) := fun fs => by
    rw [plot_population_bar_chart, if_neg h]
  have h2 : render_to_file data year top_n = Except.error ("KeyError: " ++ year) := by
    simp only [render_to_file, h1 (12, 8)]
  refine ⟨h1 figsize, h2, fun f hf => ?_⟩
  rw [h2] at hf
  exact Except.noConfusion hf

/-- Instantiation of the C5 theorem at year "1999" on the fallback table. -/
theorem missing_year_errors_no_file_holds :
    plot_population_bar_chart get_sample_data "1999" 10 (12, 8)
      = Except.error ("KeyError: " ++ "1999")
    ∧ render_to_file get_sample_data "1999" 10 = Except.error ("KeyError: " ++ "1999")
    ∧ ∀ f, render_to_file get_sample_data "1999" 10 ≠ Except.ok f :=
  missing_year_errors_no_file get_sample_data "1999" 10 (12, 8) (by decide)

/-- C6: the fallback table is a deterministic constant with exactly 15 rows,
a country-name column, exactly the year columns "2010", "2015", "2020", and
the fixed literal population counts of `src/task1.py` lines 35–56. -/
theorem get_sample_data_shape :
    get_sample_data.rows.length = 15
    ∧ get_sample_data.yearColumns = ["2010", "2015", "2020"]
    ∧ get_sample_data.rows.map (fun r => r.country)
        = ["China", "India", "United States", "Indonesia", "Pakistan",
           "Brazil", "Nigeria", "Bangladesh", "Russia", "Mexico",
           "Japan", "Ethiopia", "Philippines", "Egypt", "Vietnam"]
    ∧ (∀ r ∈ get_sample_data.rows, r.pops.map (fun p => p.1) = ["2010", "2015", "2020"])
    ∧ get_sample_data.rows.map (fun r => r.val "2010")
        = [1337705000, 1230984504, 309011475, 242524123, 179424641,
           196796269, 158503197, 147575430, 143479274, 119090017,
           128542353, 87702670, 93966780, 82761235, 87411012]
    ∧ get_sample_data.rows.map (fun r => r.val "2015")
        = [1406847870, 1310152403, 321418820, 258383256, 199426964,
           204471769, 181137448, 156256276, 144096870, 125890949,
           127985133, 100835458, 102113212, 92442547, 92677076]
    ∧ get_sample_data.rows.map (fun r => r.val "2020")
        = [1410929362, 1380004385, 329484123, 273523621, 220892331,
           212559409, 206139587, 164689383, 144104080, 128932753,
           125836021, 114963583, 109581085, 102334403, 97338583] := by
  refine ⟨rfl, rfl, by decide, by decide, by decide, by decide, by decide⟩

/-- C7: a `top_n` larger than the table's row count selects all rows (the
count is clipped to the row count) and raises no error. -/
theorem top_n_clips_to_all_rows (data : PopulationTable) (year : String)
    (top_n : Nat) (figsize : Nat × Nat) (hy : year ∈ data.yearColumns)
    (hn : data.rows.length ≤ top_n) :
    (plot_population_bar_chart data year top_n figsize).map (fun p => p.1.selected)
      = Except.ok (sort_values_desc year data.rows)
    ∧ (plot_population_bar_chart data year top_n figsize).map (fun p => p.1.countries.length)
      = Except.ok (data.rows.length) := by
  have hlen : (sort_values_desc year data.rows).length = data.rows.length :=
    (sort_values_desc_perm year data.rows).length_eq
  have htake : (sort_values_desc year data.rows).take top_n = sort_values_desc year data.rows :=
    List.take_of_length_le (by omega)
  rw [plot_population_bar_chart, if_pos hy]
  constructor
  · simp only [Except.map, htake]
  · simp only [Except.map, List.length_map, htake, hlen]

/-- Instantiation of the C7 theorem with `top_n = 99` on the 15-row table. -/
theorem top_n_clips_to_all_rows_holds :
    (plot_population_bar_chart get_sample_data "2020" 99 (12, 8)).map (fun p => p.1.selected)
      = Except.ok (sort_values_desc "2020" get_sample_data.rows)
    ∧ (plot_population_bar_chart get_sample_data "2020" 99 (12, 8)).map
        (fun p => p.1.countries.length)
      = Except.ok (get_sample_data.rows.length) :=
  top_n_clips_to_all_rows get_sample_data "2020" 99 (12, 8) (by decide) (by decide)

/-- Environment in which the single network attempt succeeds with HTTP 200
and the body parses into a (non-sample) table: here an empty one. -/
def successfulFetchEnv : FetchOutcome :=
  FetchOutcome.httpResponse 200 (Except.ok { yearColumns := ["2020"], rows := [] })

/-- C8 counterexample: `main` does not attempt the fetch-with-fallback data
path.  In a network environment where the fetch would succeed and return a
table other than the static sample (here, an empty table), `main` still
renders ten bars taken from the static sample data: line 128 calls
`get_sample_data()` directly and never `fetch_world_bank_population_data`. -/
theorem main_does_not_fetch :
    (fetch_world_bank_population_data successfulFetchEnv).1.rows.length = 0
    ∧ (fetch_world_bank_population_data successfulFetchEnv).1 ≠ get_sample_data
    ∧ (main_run successfulFetchEnv).2.map (fun p => p.1.selected.length) = Except.ok 10 := by
  refine ⟨rfl, by decide, by decide⟩

/-- C8 (amended): the entry point renders the static sample table directly —
the fetch-with-fallback path is never invoked, whatever the network outcome —
for the default year "2020" and default top-N 10, and writes exactly one
image file named "population_top10_2020.png". -/
theorem main_renders_sample_defaults (env env' : FetchOutcome) :
    main_run env = main_run env'
    ∧ (main_run env).2.map (fun p => p.2) = Except.ok ("population_top10_2020.png")
    ∧ (main_run env).2.map (fun p => p.1.selected)
        = Except.ok ((sort_values_desc "2020" get_sample_data.rows).take 10) := by
  have hconst : main_run env = main_run (FetchOutcome.transportError "") := rfl
  refine ⟨rfl, ?_, ?_⟩ <;> rw [hconst] <;> decide

/-- C9: the renderer never mutates the table passed to it: the `data`
argument it hands back equals the table it was given, whatever the year and
`top_n` (sorting and selection operate on fresh frames). -/
theorem plot_preserves_input_table (data : PopulationTable) (year : String)
    (top_n : Nat) (figsize : Nat × Nat) :
    (plot_population_bar_chart data year top_n figsize).map (fun p => p.2)
      = (plot_population_bar_chart data year top_n figsize).map (fun _ => data) := by
  rw [plot_population_bar_chart]
  split <;> rfl

end Task1
